import Mathlib

/-!
# Verification of the rusty-url-shortner HTTP handlers

Shallow embedding of `src/routes.rs` of the `rusty-url-shortner` service.

The database (PostgreSQL, accessed through sqlx) is modelled as an explicit
`Store` value: a list of `links` rows and a list of `link_statistics` rows.
Each handler becomes a pure function of the store, its inputs, and an
oracle describing the outcome of each external database round trip
(`Option DbFailure`: `none` means the store answered within the timeout,
`some .timeout` means the 300 ms timeout elapsed, `some (.storeError m)`
means the driver reported error `m`).  The random source feeding
`generate_id` becomes an explicit `Nat` argument.
-/

/-- A row of the `links` table, and the JSON body of create/update responses.
Mirrors `struct Link { id: String, target_url: String }` in `routes.rs`. -/
structure Link where
  id : String
  target_url : String
deriving DecidableEq, Repr

/-- A row of the `link_statistics` table: one recorded redirect event.
`referer`/`user_agent` are nullable columns (`Option`). -/
structure LinkStatisticEvent where
  link_id : String
  referer : Option String
  user_agent : Option String
deriving DecidableEq, Repr

/-- One row of the aggregation returned by `get_link_statistic`.
Mirrors `struct CountedLinkStatistic { amount: Option<i64>, referer: Option<String>,
user_agent: Option<String> }`. -/
structure CountedLinkStatistic where
  amount : Option Int
  referer : Option String
  user_agent : Option String
deriving DecidableEq, Repr

/-- The relational store owned by the external PostgreSQL collaborator:
table `links(id primary key, target_url)` and append-only table
`link_statistics(link_id, referer, user_agent)`. -/
structure Store where
  links : List Link
  link_statistics : List LinkStatisticEvent
deriving DecidableEq, Repr

/-- Outcome of an external database round trip that did not produce rows:
either the 300 ms tokio timeout elapsed, or sqlx reported an error. -/
inductive DbFailure where
  | timeout
  | storeError (msg : String)
deriving DecidableEq, Repr

/-- The textual description of a failed round trip.  A tokio
`Elapsed` error displays as "deadline has elapsed"; a store error carries
its own message. -/
def DbFailure.text : DbFailure → String
  | .timeout => "deadline has elapsed"
  | .storeError msg => msg

/-- Modelled from the spec: `crate::utils::internal_error` (file
`src/utils.rs`, absent from the sources; only its import and call sites
appear in `src/routes.rs`).  Per the spec, all Persistence Gateway
timeout/store errors "surface uniformly as `500 Internal Server Error`
with the error's textual description as the body". -/
def internal_error (err : String) : Nat × String := (500, err)

/-- An HTTP response as built by the `redirect` handler:
status code, header list, body. -/
structure HttpResponse where
  status : Nat
  headers : List (String × String)
  body : String
deriving DecidableEq, Repr

/-- `DEFAULT_CACHE_CONTROL_HEADER_VALUE` from `routes.rs`. -/
def DEFAULT_CACHE_CONTROL_HEADER_VALUE : String :=
  "public, max-age=300, s-maxage=300, stale-while-revalidate=300, stale-if-error=300"

/-- A raw HTTP header value: an arbitrary byte string, as in the `http`
crate's `HeaderValue`. -/
structure HeaderValue where
  bytes : List Nat
deriving DecidableEq, Repr

/-- `http::HeaderValue` considers a byte visible ASCII when it is in
`32..=126` or is a horizontal tab. -/
def is_visible_ascii (b : Nat) : Bool := (32 ≤ b && b < 127) || b == 9

/-- `HeaderValue::to_str`: succeeds (with the value decoded as a string)
exactly when every byte is visible ASCII. -/
def HeaderValue.to_str (v : HeaderValue) : Option String :=
  if v.bytes.all is_visible_ascii then
    some (String.mk (v.bytes.map Char.ofNat))
  else
    none

/-- `rand::thread_rng().gen_range(0..u32::MAX)` draws uniformly from the
half-open range `0..u32::MAX`.  `gen_range_mass lo hi n` is the probability
mass the draw assigns to `n`. -/
def gen_range_mass (lo hi n : Nat) : ℚ :=
  if lo ≤ n ∧ n < hi then 1 / ((hi : ℚ) - (lo : ℚ)) else 0

/-- `u32::MAX`. -/
def u32MAX : Nat := 2 ^ 32 - 1

/-- Probability mass of each value of `random_number` in `generate_id`:
the mass of `gen_range(0..u32::MAX)`. -/
def random_number_mass (n : Nat) : ℚ := gen_range_mass 0 u32MAX n

/-- Decimal rendering, fuel-based recursion (`n / 10` strictly decreases, so
any fuel above `n` suffices). -/
def decimalCharsAux : Nat → Nat → List Char
  | 0, _ => []
  | fuel + 1, n =>
    if n < 10 then
      [Char.ofNat (48 + n)]
    else
      decimalCharsAux fuel (n / 10) ++ [Char.ofNat (48 + n % 10)]

/-- Decimal rendering of a natural number, the translation of Rust's
`u32::to_string` used in `generate_id`. -/
def decimalChars (n : Nat) : List Char := decimalCharsAux (n + 1) n

/-- The URL-safe base64 alphabet (RFC 4648 §5): `A-Z a-z 0-9 - _`. -/
def base64UrlAlphabet : List Char :=
  "ABCDEFGHIJKLMNOPQRSTUVWXYZabcdefghijklmnopqrstuvwxyz0123456789-_".toList

/-- The character the URL-safe base64 alphabet assigns to a sextet value. -/
def sextetChar (i : Nat) : Char := base64UrlAlphabet.getD i 'A'

/-- `base64::engine::general_purpose::URL_SAFE_NO_PAD.encode`, on a byte
list: three input bytes yield four sextets; a final group of one or two
bytes yields two or three sextets (low bits zero-filled) and no padding. -/
def encodeB64 : List Nat → List Char
  | [] => []
  | [b1] =>
      [sextetChar (b1 / 4), sextetChar (b1 % 4 * 16)]
  | [b1, b2] =>
      [sextetChar (b1 / 4), sextetChar (b1 % 4 * 16 + b2 / 16),
       sextetChar (b2 % 16 * 4)]
  | b1 :: b2 :: b3 :: rest =>
      sextetChar (b1 / 4) :: sextetChar (b1 % 4 * 16 + b2 / 16) ::
      sextetChar (b2 % 16 * 4 + b3 / 64) :: sextetChar (b3 % 64) ::
      encodeB64 rest

/-- The eight bits of a byte, most significant first (specification side,
for comparing `encodeB64` against the RFC 4648 bitstream definition). -/
def byteBits (b : Nat) : List Bool :=
  [b / 128 % 2 == 1, b / 64 % 2 == 1, b / 32 % 2 == 1, b / 16 % 2 == 1,
   b / 8 % 2 == 1, b / 4 % 2 == 1, b / 2 % 2 == 1, b % 2 == 1]

/-- The value of a big-endian bit string (specification side). -/
def bitsVal : List Bool → Nat
  | [] => 0
  | b :: rest => (if b then 1 else 0) * 2 ^ rest.length + bitsVal rest

/-- Split a bit string into 6-bit groups, zero-filling the final partial
group (specification side). -/
def chunk6 (bits : List Bool) : List (List Bool) :=
  if bits = [] then []
  else if bits.length ≤ 6 then [bits ++ List.replicate (6 - bits.length) false]
  else bits.take 6 :: chunk6 (bits.drop 6)
termination_by bits.length
decreasing_by simp; omega

/-- RFC 4648 §5 base64url without padding, stated independently of
`encodeB64`: concatenate the bits of the input bytes, split into 6-bit
groups zero-filling the last, and map each group's value through the
URL-safe alphabet. -/
def base64url_spec (bytes : List Nat) : List Char :=
  (chunk6 (bytes.map byteBits).flatten).map fun c => sextetChar (bitsVal c)

/-- `generate_id` from `routes.rs`, with the random draw made explicit:
`random_number` stands for the value produced by
`rand::thread_rng().gen_range(0..u32::MAX)`; the function renders its
decimal text and base64url-encodes it without padding.  No store access,
collision check or retry occurs. -/
def generate_id (random_number : Nat) : String :=
  String.mk (encodeB64 ((decimalChars random_number).map Char.toNat))

/-- `select_timeout` in `redirect` (`Duration::from_millis(300)`), in ms. -/
def select_timeout : Nat := 300

/-- `insert_statistics_timeout` in `redirect`, in ms. -/
def insert_statistics_timeout : Nat := 300

/-- `insert_link_timeout` in `create_link`, in ms. -/
def insert_link_timeout : Nat := 300

/-- `update_link_timeout` in `update_link`, in ms. -/
def update_link_timeout : Nat := 300

/-- `fetch_statistice_timeout` in `get_link_statistic` (name as in the
source), in ms. -/
def fetch_statistice_timeout : Nat := 300

/-- The `redirect` handler.

* `headers` is the request header map (names already lowercased, as in
  `http::HeaderMap`); `lookupFail` is the outcome of the timed
  `select id, target_url from links where id = $1` round trip, and
  `insertFail` the outcome of the timed `insert into link_statistics` round
  trip (`none` = store answered in time).
* Returns the store after the handler and the HTTP outcome: `.error` is the
  `Err((StatusCode, String))` arm, `.ok` the built `Response`.

Control flow translated from `routes.rs` lines 49–125: a failed or timed-out
lookup maps through `internal_error` to 500; zero rows map to
`(404, "Not found")`; otherwise the referer/user-agent headers are captured
with `to_str().unwrap_or_default()`, the statistic insert is attempted and
its failure only logged (the store is unchanged then), and the response is
always `307` with `location` and `Cache-Control` headers and empty body. -/
def redirect (store : Store) (requested_link : String)
    (headers : List (String × HeaderValue))
    (lookupFail insertFail : Option DbFailure) :
    Store × Except (Nat × String) HttpResponse :=
  match lookupFail with
  | some f => (store, .error (internal_error f.text))
  | none =>
    match store.links.find? (fun l => l.id == requested_link) with
    | none => (store, .error (404, "Not found"))
    | some link =>
      let referer_header := (headers.lookup "referer").map
        (fun v => v.to_str.getD "")
      let user_agent_header := (headers.lookup "user-agent").map
        (fun v => v.to_str.getD "")
      let store' :=
        match insertFail with
        | some _ => store
        | none =>
          { store with link_statistics := store.link_statistics ++
              [⟨requested_link, referer_header, user_agent_header⟩] }
      (store',
        .ok { status := 307,
              headers := [("location", link.target_url),
                          ("Cache-Control", DEFAULT_CACHE_CONTROL_HEADER_VALUE)],
              body := "" })

/-- The `create_link` handler.

* `parseUrl` abstracts the external `url` crate: `Url::parse` composed with
  `to_string`, i.e. `parseUrl s = some u` when `s` parses as an absolute URL
  whose re-serialized (normalized) form is `u`, and `none` otherwise.
* `random_number` is the value drawn inside `generate_id`; `insertFail` the
  outcome of the timed insert round trip.

Translated from `routes.rs` lines 128–164: a parse failure returns
`(409, "url malformed")` before any store access; a timed-out or failed
insert maps through `internal_error` to 500; inserting a duplicate id
violates the primary-key constraint, which sqlx reports as an error, again
mapped through `internal_error`; otherwise the row is inserted and returned
as the body of a 200 response (`Ok(Json(..))`). -/
def create_link (store : Store) (parseUrl : String → Option String)
    (target_url : String) (random_number : Nat)
    (insertFail : Option DbFailure) :
    Store × Except (Nat × String) Link :=
  match parseUrl target_url with
  | none => (store, .error (409, "url malformed"))
  | some url =>
    let new_link_id := generate_id random_number
    match insertFail with
    | some f => (store, .error (internal_error f.text))
    | none =>
      if store.links.any (fun l => l.id == new_link_id) then
        (store, .error (internal_error
          "duplicate key value violates unique constraint"))
      else
        let new_link : Link := ⟨new_link_id, url⟩
        ({ store with links := store.links ++ [new_link] }, .ok new_link)

/-- The `update_link` handler.

Translated from `routes.rs` lines 166–199: a parse failure returns
`(409, "url malformed")` before any store access; a timed-out or failed
update maps through `internal_error` to 500; when no row matches `link_id`
the `returning` query yields zero rows and `fetch_one` fails with sqlx's
`RowNotFound`, which also maps through `internal_error` to 500; otherwise
the matching row's `target_url` is replaced and the updated row returned
with 200. -/
def update_link (store : Store) (parseUrl : String → Option String)
    (link_id target_url : String) (updateFail : Option DbFailure) :
    Store × Except (Nat × String) Link :=
  match parseUrl target_url with
  | none => (store, .error (409, "url malformed"))
  | some url =>
    match updateFail with
    | some f => (store, .error (internal_error f.text))
    | none =>
      if store.links.any (fun l => l.id == link_id) then
        let links' := store.links.map
          (fun l => if l.id == link_id then { l with target_url := url } else l)
        ({ store with links := links' }, .ok ⟨link_id, url⟩)
      else
        (store, .error (internal_error
          "no rows returned by a query that expected to return at least one row"))

/-- Relational GROUP BY + COUNT on a list of events already filtered to one
`link_id`: one output row per distinct `(referer, user_agent)` pair, in
order of first appearance, with `amount` the number of events carrying that
pair. -/
def group_counts (evs : List LinkStatisticEvent) : List CountedLinkStatistic :=
  ((evs.map fun e => (e.referer, e.user_agent)).dedup).map fun p =>
    { amount := some (Int.ofNat (evs.countP fun e => (e.referer, e.user_agent) == p)),
      referer := p.1,
      user_agent := p.2 }

/-- The `get_link_statistic` handler.

Translated from `routes.rs` lines 201–225: a timed-out or failed query maps
through `internal_error` to 500; otherwise the SQL
`select count(*) as amount, referer, user_agent from link_statistics group
by link_id, referer, user_agent having link_id = $1` groups the events of
the requested link by their `(referer, user_agent)` pair and counts each
group; the (possibly empty) list is returned with 200 (`Ok(Json(..))`). -/
def get_link_statistic (store : Store) (link_id : String)
    (fetchFail : Option DbFailure) :
    Store × Except (Nat × String) (List CountedLinkStatistic) :=
  match fetchFail with
  | some f => (store, .error (internal_error f.text))
  | none =>
    (store, .ok (group_counts
      (store.link_statistics.filter fun e => e.link_id == link_id)))

example : decimalChars 1234567890 = "1234567890".toList := by decide
example : generate_id 0 = "MA" := by decide
example : generate_id 123 = "MTIz" := by decide

/-- When `L` is in the table and ids are unique, the SQL lookup
`where id = $1` with `$1 = L.id` finds exactly `L`. -/
theorem find_eq_of_mem_nodup (ls : List Link) (L : Link)
    (hmem : L ∈ ls) (hnodup : (ls.map Link.id).Nodup) :
    ls.find? (fun l => l.id == L.id) = some L := by
  induction ls with
  | nil => cases hmem
  | cons a ls ih =>
    rcases List.mem_cons.mp hmem with rfl | hmem'
    · exact List.find?_cons_of_pos _ (by simp)
    · have hne : (a.id == L.id) = false := by
        simp only [List.map_cons, List.nodup_cons] at hnodup
        have : L.id ∈ ls.map Link.id := List.mem_map_of_mem _ hmem'
        exact beq_eq_false_iff_ne.mpr (fun h => hnodup.1 (h ▸ this))
      rw [List.find?_cons_of_neg _ (by simp [hne])]
      exact ih hmem' (by simp only [List.map_cons, List.nodup_cons] at hnodup; exact hnodup.2)

/-- C1: For every link L present in the store (ids being unique, as the
primary key guarantees), `redirect` on `L.id` with a successful lookup
returns status `307 Temporary Redirect` with the `location` header equal to
L's stored `target_url` and the `Cache-Control` header equal to the exact
literal `public, max-age=300, s-maxage=300, stale-while-revalidate=300,
stale-if-error=300`, whatever the outcome of the statistics insert. -/
theorem redirect_found_307 (store : Store) (L : Link)
    (headers : List (String × HeaderValue)) (insertFail : Option DbFailure)
    (hmem : L ∈ store.links) (hnodup : (store.links.map Link.id).Nodup) :
    (redirect store L.id headers none insertFail).2 =
      .ok { status := 307,
            headers := [("location", L.target_url),
              ("Cache-Control",
                "public, max-age=300, s-maxage=300, stale-while-revalidate=300, stale-if-error=300")],
            body := "" } := by
  unfold redirect
  rw [find_eq_of_mem_nodup store.links L hmem hnodup]
  cases insertFail <;> rfl

/-- Witness for C1 at a concrete one-link store. -/
theorem redirect_found_307_witness :
    (redirect ⟨[⟨"abc", "https://example.com/"⟩], []⟩ "abc" [] none none).2 =
      .ok { status := 307,
            headers := [("location", "https://example.com/"),
              ("Cache-Control",
                "public, max-age=300, s-maxage=300, stale-while-revalidate=300, stale-if-error=300")],
            body := "" } :=
  redirect_found_307 ⟨[⟨"abc", "https://example.com/"⟩], []⟩
    ⟨"abc", "https://example.com/"⟩ [] none (by decide) (by decide)

/-- C2: For every id not present in the store, `redirect` with a successful
lookup round trip returns status `404 Not Found` (body "Not found"). -/
theorem redirect_unknown_404 (store : Store) (requested_link : String)
    (headers : List (String × HeaderValue)) (insertFail : Option DbFailure)
    (habs : ∀ l ∈ store.links, l.id ≠ requested_link) :
    (redirect store requested_link headers none insertFail).2 =
      .error (404, "Not found") := by
  unfold redirect
  have : store.links.find? (fun l => l.id == requested_link) = none := by
    rw [List.find?_eq_none]
    intro l hl
    simpa using habs l hl
  rw [this]

/-- Witness for C2 at a concrete store not containing the requested id. -/
theorem redirect_unknown_404_witness :
    (redirect ⟨[⟨"abc", "https://example.com/"⟩], []⟩ "zzz" [] none none).2 =
      .error (404, "Not found") :=
  redirect_unknown_404 ⟨[⟨"abc", "https://example.com/"⟩], []⟩ "zzz" [] none
    (by decide)

/-- C3: For every input string on which URL parsing fails, `create_link`
and `update_link` return status `409 Conflict` (body "url malformed") and
leave the store untouched — validation happens before any store round trip,
so the result does not even depend on the database oracle. -/
theorem malformed_url_409_no_mutation (store : Store)
    (parseUrl : String → Option String) (S link_id : String) (n : Nat)
    (f1 f2 : Option DbFailure) (hmal : parseUrl S = none) :
    create_link store parseUrl S n f1 = (store, .error (409, "url malformed")) ∧
    update_link store parseUrl link_id S f2 =
      (store, .error (409, "url malformed")) := by
  constructor <;> simp [create_link, update_link, hmal]

/-- Witness for C3 with a parser rejecting everything and a nonempty store. -/
theorem malformed_url_409_no_mutation_witness :
    create_link ⟨[⟨"a", "u"⟩], []⟩ (fun _ => none) "not-a-url" 5 none =
      (⟨[⟨"a", "u"⟩], []⟩, .error (409, "url malformed")) ∧
    update_link ⟨[⟨"a", "u"⟩], []⟩ (fun _ => none) "a" "not-a-url" none =
      (⟨[⟨"a", "u"⟩], []⟩, .error (409, "url malformed")) :=
  malformed_url_409_no_mutation ⟨[⟨"a", "u"⟩], []⟩ (fun _ => none)
    "not-a-url" "a" 5 none none rfl

/-- C4: For every store of recorded statistic events,
`get_link_statistic` (with a successful round trip) answers 200 (`.ok`) with
a list holding exactly one row per distinct `(referer, user_agent)` pair
among the events whose `link_id` matches, each row's `amount` being the
number of matching events carrying that pair; an id with no events yields
the empty list (200, never 404). -/
theorem stats_one_row_per_pair (store : Store) (link_id : String) :
    ∃ rows, (get_link_statistic store link_id none).2 = .ok rows ∧
      (rows.map fun r => (r.referer, r.user_agent)).Nodup ∧
      (∀ p : Option String × Option String,
        p ∈ rows.map (fun r => (r.referer, r.user_agent)) ↔
          ∃ e ∈ store.link_statistics,
            e.link_id = link_id ∧ (e.referer, e.user_agent) = p) ∧
      (∀ r ∈ rows, r.amount = some (Int.ofNat
        ((store.link_statistics.filter fun e => e.link_id == link_id).countP
          fun e => (e.referer, e.user_agent) == (r.referer, r.user_agent)))) ∧
      ((∀ e ∈ store.link_statistics, e.link_id ≠ link_id) → rows = []) := by
  refine ⟨_, rfl, ?_, ?_, ?_, ?_⟩
  · have hmap : ((group_counts (store.link_statistics.filter
          fun e => e.link_id == link_id)).map
        fun r => (r.referer, r.user_agent)) =
        ((store.link_statistics.filter fun e => e.link_id == link_id).map
          fun e => (e.referer, e.user_agent)).dedup := by
      simp [group_counts, List.map_map, Function.comp_def]
    rw [hmap]
    exact List.nodup_dedup _
  · intro p
    have hmap : ((group_counts (store.link_statistics.filter
          fun e => e.link_id == link_id)).map
        fun r => (r.referer, r.user_agent)) =
        ((store.link_statistics.filter fun e => e.link_id == link_id).map
          fun e => (e.referer, e.user_agent)).dedup := by
      simp [group_counts, List.map_map, Function.comp_def]
    rw [hmap, List.mem_dedup, List.mem_map]
    constructor
    · rintro ⟨e, he, rfl⟩
      rcases List.mem_filter.mp he with ⟨he', hid⟩
      exact ⟨e, he', by simpa using hid, rfl⟩
    · rintro ⟨e, he, hid, rfl⟩
      exact ⟨e, List.mem_filter.mpr ⟨he, by simpa using hid⟩, rfl⟩
  · intro r hr
    rcases List.mem_map.mp hr with ⟨p, _, rfl⟩
    rfl
  · intro habs
    have : store.link_statistics.filter (fun e => e.link_id == link_id) = [] := by
      rw [List.filter_eq_nil_iff]
      intro e he
      simpa using habs e he
    simp [this, group_counts]

/-- C6: For every well-formed URL and every `link_id` matching no row,
`update_link` with a successful round trip returns status
`500 Internal Server Error` — not 404 — because `fetch_one` on the
zero-row `returning` result fails and is mapped by `internal_error`. -/
theorem update_missing_id_500 (store : Store)
    (parseUrl : String → Option String) (link_id target_url u : String)
    (hurl : parseUrl target_url = some u)
    (habs : ∀ l ∈ store.links, l.id ≠ link_id) :
    (update_link store parseUrl link_id target_url none).2 =
      .error (500,
        "no rows returned by a query that expected to return at least one row") := by
  have hany : store.links.any (fun l => l.id == link_id) = false := by
    rw [List.any_eq_false]
    intro l hl
    simpa using habs l hl
  simp [update_link, hurl, hany, internal_error]

/-- Witness for C6: updating an id absent from a one-link store. -/
theorem update_missing_id_500_witness :
    (update_link ⟨[⟨"abc", "https://example.com/"⟩], []⟩ (fun s => some s)
        "zzz" "https://new.example/" none).2 =
      .error (500,
        "no rows returned by a query that expected to return at least one row") :=
  update_missing_id_500 ⟨[⟨"abc", "https://example.com/"⟩], []⟩ (fun s => some s)
    "zzz" "https://new.example/" "https://new.example/" rfl (by decide)

/-- C9: Every database round trip in every handler is wrapped in a 300 ms
timeout (the five duration constants of `routes.rs` all equal 300), and an
elapsed timeout on a primary operation surfaces as a 500 response carrying
the timeout error's textual description. -/
theorem gateway_timeout_300_uniform_500 :
    select_timeout = 300 ∧ insert_statistics_timeout = 300 ∧
    insert_link_timeout = 300 ∧ update_link_timeout = 300 ∧
    fetch_statistice_timeout = 300 ∧
    (∀ store requested_link headers insertFail,
      redirect store requested_link headers (some .timeout) insertFail =
        (store, .error (500, DbFailure.timeout.text))) ∧
    (∀ store parseUrl target n u, parseUrl target = some u →
      create_link store parseUrl target n (some .timeout) =
        (store, .error (500, DbFailure.timeout.text))) ∧
    (∀ store parseUrl link_id target u, parseUrl target = some u →
      update_link store parseUrl link_id target (some .timeout) =
        (store, .error (500, DbFailure.timeout.text))) ∧
    (∀ store link_id,
      get_link_statistic store link_id (some .timeout) =
        (store, .error (500, DbFailure.timeout.text))) := by
  refine ⟨rfl, rfl, rfl, rfl, rfl, fun _ _ _ _ => rfl, ?_, ?_, fun _ _ => rfl⟩
  · intro store parseUrl target n u hu
    simp [create_link, hu, internal_error, DbFailure.text]
  · intro store parseUrl link_id target u hu
    simp [update_link, hu, internal_error, DbFailure.text]

/-- Witness for C9: timeouts on each primary operation at concrete inputs. -/
theorem gateway_timeout_300_uniform_500_witness :
    redirect ⟨[], []⟩ "x" [] (some .timeout) none =
      (⟨[], []⟩, .error (500, "deadline has elapsed")) ∧
    create_link ⟨[], []⟩ (fun s => some s) "https://e/" 0 (some .timeout) =
      (⟨[], []⟩, .error (500, "deadline has elapsed")) ∧
    update_link ⟨[], []⟩ (fun s => some s) "x" "https://e/" (some .timeout) =
      (⟨[], []⟩, .error (500, "deadline has elapsed")) ∧
    get_link_statistic ⟨[], []⟩ "x" (some .timeout) =
      (⟨[], []⟩, .error (500, "deadline has elapsed")) :=
  ⟨gateway_timeout_300_uniform_500.2.2.2.2.2.1 ⟨[], []⟩ "x" [] none,
   gateway_timeout_300_uniform_500.2.2.2.2.2.2.1 ⟨[], []⟩ (fun s => some s)
     "https://e/" 0 "https://e/" rfl,
   gateway_timeout_300_uniform_500.2.2.2.2.2.2.2.1 ⟨[], []⟩ (fun s => some s)
     "x" "https://e/" "https://e/" rfl,
   gateway_timeout_300_uniform_500.2.2.2.2.2.2.2.2 ⟨[], []⟩ "x"⟩

/-- C10: During `redirect` of a stored link, the statistic event appended to
the store records, for each of the `referer` and `user-agent` headers: the
empty string when the header is present but its bytes are not a valid
visible-ASCII string (`to_str` fails, `unwrap_or_default` yields ""), and an
absent value only when the header is missing from the request. -/
theorem header_capture_empty_vs_absent (store : Store) (L : Link)
    (headers : List (String × HeaderValue))
    (hmem : L ∈ store.links) (hnodup : (store.links.map Link.id).Nodup) :
    ∃ ev, (redirect store L.id headers none none).1.link_statistics =
        store.link_statistics ++ [ev] ∧
      ev.link_id = L.id ∧
      (∀ v, headers.lookup "referer" = some v → v.to_str = none →
        ev.referer = some "") ∧
      (headers.lookup "referer" = none → ev.referer = none) ∧
      (∀ v, headers.lookup "user-agent" = some v → v.to_str = none →
        ev.user_agent = some "") ∧
      (headers.lookup "user-agent" = none → ev.user_agent = none) := by
  refine ⟨⟨L.id, (headers.lookup "referer").map (fun v => v.to_str.getD ""),
    (headers.lookup "user-agent").map (fun v => v.to_str.getD "")⟩, ?_, rfl,
    ?_, ?_, ?_, ?_⟩
  · unfold redirect
    rw [find_eq_of_mem_nodup store.links L hmem hnodup]
  · intro v hv hnone
    simp [hv, hnone, Option.getD]
  · intro hv
    simp [hv]
  · intro v hv hnone
    simp [hv, hnone, Option.getD]
  · intro hv
    simp [hv]

/-- Witness for C10: a present-but-invalid referer (byte 200 is not visible
ASCII) is recorded as the empty string; the missing user-agent as absent. -/
theorem header_capture_empty_vs_absent_witness :
    ∃ ev, (redirect ⟨[⟨"abc", "https://example.com/"⟩], []⟩ "abc"
        [("referer", ⟨[200]⟩)] none none).1.link_statistics = [] ++ [ev] ∧
      ev.link_id = "abc" ∧
      ev.referer = some "" ∧ ev.user_agent = none := by
  obtain ⟨ev, h1, h2, h3, _, _, h6⟩ :=
    header_capture_empty_vs_absent ⟨[⟨"abc", "https://example.com/"⟩], []⟩
      ⟨"abc", "https://example.com/"⟩ [("referer", ⟨[200]⟩)]
      (by decide) (by decide)
  exact ⟨ev, h1, h2, h3 ⟨[200]⟩ rfl (by decide), h6 rfl⟩

/-- C5: During `redirect`, a failure of the statistic-event insert (timeout
or store error) never changes the HTTP outcome — the response equals the one
produced when the insert succeeds — and never mutates the store; the failure
is only logged. -/
theorem statistic_failure_never_surfaces (store : Store)
    (requested_link : String) (headers : List (String × HeaderValue))
    (lookupFail : Option DbFailure) (f : DbFailure) :
    (redirect store requested_link headers lookupFail (some f)).2 =
      (redirect store requested_link headers lookupFail none).2 ∧
    (redirect store requested_link headers none (some f)).1 = store := by
  unfold redirect
  cases lookupFail with
  | some g => exact ⟨rfl, by cases h : store.links.find? (fun l => l.id == requested_link) <;> rfl⟩
  | none =>
    cases h : store.links.find? (fun l => l.id == requested_link) <;> exact ⟨rfl, rfl⟩

/-- Splitting off a full 6-bit group commutes with `chunk6`. -/
theorem chunk6_cons6 (a b c d e f : Bool) (bs : List Bool) :
    chunk6 (a :: b :: c :: d :: e :: f :: bs) = [a, b, c, d, e, f] :: chunk6 bs := by
  cases bs with
  | nil => simp [chunk6]
  | cons x xs =>
    rw [chunk6]
    simp [Nat.succ_le_iff]

/-- A bit contributes its value: `if x % 2 == 1 then 1 else 0` is `x % 2`. -/
theorem bit_if (x : Nat) : (if (x % 2 == 1) then 1 else 0 : Nat) = x % 2 := by
  rcases Nat.mod_two_eq_zero_or_one x with h | h <;> simp [h]

/-- `encodeB64` (the arithmetic translation of the base64 crate's
URL_SAFE_NO_PAD engine) agrees with the RFC 4648 bitstream specification on
every byte list. -/
theorem encodeB64_eq_spec : ∀ bytes : List Nat, (∀ b ∈ bytes, b < 256) →
    encodeB64 bytes = base64url_spec bytes := by
  intro bytes
  induction bytes using encodeB64.induct with
  | case1 => intro _; simp [base64url_spec, chunk6, encodeB64]
  | case2 b1 =>
    intro h
    have h1 : b1 < 256 := h b1 (by simp)
    simp only [base64url_spec, List.map, List.flatten_cons, List.flatten_nil,
      List.append_nil, byteBits]
    rw [chunk6_cons6]
    rw [chunk6]
    simp only [encodeB64, List.map, bitsVal, List.length, bit_if]
    norm_num
    constructor
    · congr 1
      omega
    · congr 1
      omega
  | case3 b1 b2 =>
    intro h
    have h1 : b1 < 256 := h b1 (by simp)
    have h2 : b2 < 256 := h b2 (by simp)
    simp only [base64url_spec, List.map, List.flatten_cons, List.flatten_nil,
      List.append_nil, byteBits, List.cons_append, List.nil_append]
    rw [chunk6_cons6, chunk6_cons6]
    rw [chunk6]
    simp only [encodeB64, List.map, bitsVal, List.length, bit_if]
    norm_num
    refine ⟨?_, ?_, ?_⟩ <;> (congr 1; omega)
  | case4 b1 b2 b3 rest ih =>
    intro h
    have h1 : b1 < 256 := h b1 (by simp)
    have h2 : b2 < 256 := h b2 (by simp)
    have h3 : b3 < 256 := h b3 (by simp)
    have hrest : ∀ b ∈ rest, b < 256 := fun b hb => h b (by simp [hb])
    simp only [base64url_spec, List.map, List.flatten_cons, byteBits,
      List.cons_append, List.nil_append] at ih ⊢
    rw [chunk6_cons6, chunk6_cons6, chunk6_cons6, chunk6_cons6]
    simp only [encodeB64, List.map, bitsVal, List.length, bit_if]
    rw [ih hrest]
    norm_num
    refine ⟨?_, ?_, ?_, ?_⟩ <;> (congr 1; omega)

/-- Any sextet index maps into the URL-safe alphabet. -/
theorem sextetChar_mem (i : Nat) : sextetChar i ∈ base64UrlAlphabet := by
  unfold sextetChar
  rw [List.getD_eq_getElem?_getD]
  rcases h : base64UrlAlphabet[i]? with _ | c
  · simp only [Option.getD_none]
    decide
  · simp only [h, Option.getD_some]
    exact List.getElem?_mem h

/-- Every character `encodeB64` emits is in the URL-safe alphabet. -/
theorem encodeB64_mem (bs : List Nat) : ∀ c ∈ encodeB64 bs, c ∈ base64UrlAlphabet := by
  induction bs using encodeB64.induct with
  | case1 => simp [encodeB64]
  | case2 b1 =>
    intro c hc
    simp only [encodeB64, List.mem_cons, List.not_mem_nil, or_false] at hc
    rcases hc with rfl | rfl <;> exact sextetChar_mem _
  | case3 b1 b2 =>
    intro c hc
    simp only [encodeB64, List.mem_cons, List.not_mem_nil, or_false] at hc
    rcases hc with rfl | rfl | rfl <;> exact sextetChar_mem _
  | case4 b1 b2 b3 rest ih =>
    intro c hc
    simp only [encodeB64, List.mem_cons] at hc
    rcases hc with rfl | rfl | rfl | rfl | hc
    · exact sextetChar_mem _
    · exact sextetChar_mem _
    · exact sextetChar_mem _
    · exact sextetChar_mem _
    · exact ih c hc

/-- `encodeB64` emits at least one character on nonempty input. -/
theorem encodeB64_ne_nil (bs : List Nat) (h : bs ≠ []) : encodeB64 bs ≠ [] := by
  match bs with
  | [] => exact absurd rfl h
  | [b1] => simp [encodeB64]
  | [b1, b2] => simp [encodeB64]
  | b1 :: b2 :: b3 :: rest => simp [encodeB64]

/-- Every character of the decimal rendering is a digit (code 48–57). -/
theorem decimalCharsAux_digit : ∀ fuel n : Nat, ∀ c ∈ decimalCharsAux fuel n,
    48 ≤ c.toNat ∧ c.toNat ≤ 57 := by
  intro fuel
  induction fuel with
  | zero => intro n c hc; simp [decimalCharsAux] at hc
  | succ f ih =>
    intro n c hc
    by_cases h10 : n < 10
    · simp only [decimalCharsAux, if_pos h10, List.mem_singleton] at hc
      subst hc
      interval_cases n <;> decide
    · simp only [decimalCharsAux, if_neg h10, List.mem_append,
        List.mem_singleton] at hc
      rcases hc with hc | hc
      · exact ih _ c hc
      · subst hc
        have hk : n % 10 < 10 := Nat.mod_lt _ (by norm_num)
        revert hk
        generalize n % 10 = k
        intro hk
        interval_cases k <;> decide

/-- The decimal rendering of a natural number is nonempty. -/
theorem decimalChars_ne_nil (n : Nat) : decimalChars n ≠ [] := by
  unfold decimalChars
  by_cases h : n < 10 <;> simp [decimalCharsAux, h]

/-- The generated id is never the empty string. -/
theorem generate_id_ne_empty (n : Nat) : generate_id n ≠ "" := by
  intro h
  have hnil : encodeB64 ((decimalChars n).map Char.toNat) = [] :=
    congrArg String.data h
  exact encodeB64_ne_nil _ (by simp [decimalChars_ne_nil n]) hnil

/-- C8: For every input string that parses as an absolute URL with
normalized form `u`, `create_link` with a successful insert returns 200
(`.ok`) with a `Link` whose `target_url` is `u` and whose id is the
generated id: a non-empty string made only of URL-safe characters. -/
theorem create_valid_url_200 (store : Store) (parseUrl : String → Option String)
    (U u : String) (n : Nat) (hurl : parseUrl U = some u)
    (hfresh : ∀ l ∈ store.links, l.id ≠ generate_id n) :
    (create_link store parseUrl U n none).2 = .ok ⟨generate_id n, u⟩ ∧
    generate_id n ≠ "" ∧
    ∀ c ∈ (generate_id n).toList, c ∈ base64UrlAlphabet := by
  have hany : store.links.any (fun l => l.id == generate_id n) = false := by
    rw [List.any_eq_false]
    intro l hl
    simpa using hfresh l hl
  refine ⟨?_, generate_id_ne_empty n, ?_⟩
  · simp [create_link, hurl, hany]
  · intro c hc
    exact encodeB64_mem _ c hc

/-- Witness for C8: creating a link in the empty store with an identity
normalizer and random draw 7 (id "Nw", i.e. base64url of "7"). -/
theorem create_valid_url_200_witness :
    (create_link ⟨[], []⟩ (fun s => some s) "https://example.com/a" 7 none).2 =
      .ok ⟨generate_id 7, "https://example.com/a"⟩ ∧
    generate_id 7 ≠ "" ∧
    ∀ c ∈ (generate_id 7).toList, c ∈ base64UrlAlphabet :=
  create_valid_url_200 ⟨[], []⟩ (fun s => some s) "https://example.com/a"
    "https://example.com/a" 7 rfl (by decide)

/-- C7 counterexample: `gen_range(0..u32::MAX)` samples the half-open range,
so the 32-bit value `u32::MAX = 2^32 - 1` has probability mass 0 while 0 has
positive mass — not every value of the 32-bit range is equally likely. -/
theorem random_mass_not_uniform_on_u32 :
    random_number_mass (2 ^ 32 - 1) ≠ random_number_mass 0 := by
  simp only [random_number_mass, gen_range_mass, u32MAX]
  norm_num

/-- C7 (amended): the draw is uniform over the half-open range
`[0, u32::MAX)` — each such value has mass exactly `1 / (2^32 - 1)` and
every value from `u32::MAX` up has mass 0 — and `generate_id` returns the
URL-safe, padding-free base64 encoding (per the RFC 4648 bitstream
definition) of the decimal text of the drawn number; no collision check or
retry occurs: the id is a function of the drawn number alone. -/
theorem generate_id_algorithm :
    (∀ n : Nat, n < u32MAX → random_number_mass n = 1 / (u32MAX : ℚ)) ∧
    (∀ n : Nat, u32MAX ≤ n → random_number_mass n = 0) ∧
    (∀ n : Nat, generate_id n =
      String.mk (base64url_spec ((decimalChars n).map Char.toNat))) := by
  refine ⟨?_, ?_, ?_⟩
  · intro n hn
    simp [random_number_mass, gen_range_mass, hn]
  · intro n hn
    have hcond : ¬ (0 ≤ n ∧ n < u32MAX) := by omega
    unfold random_number_mass gen_range_mass
    rw [if_neg hcond]
  · intro n
    unfold generate_id
    congr 1
    refine encodeB64_eq_spec _ ?_
    intro b hb
    rcases List.mem_map.mp hb with ⟨c, hc, rfl⟩
    have := (decimalCharsAux_digit (n + 1) n c hc).2
    omega

/-- Witness for C7's amended statement: mass 1/(2^32-1) at 7, mass 0 at
u32::MAX. -/
theorem generate_id_algorithm_witness :
    random_number_mass 7 = 1 / (4294967295 : ℚ) ∧
    random_number_mass 4294967295 = 0 :=
  ⟨by rw [generate_id_algorithm.1 7 (by norm_num [u32MAX])]; norm_num [u32MAX],
   generate_id_algorithm.2.1 4294967295 (by norm_num [u32MAX])⟩

/-- Witness for C4 at a concrete store: two events with the same pair and
one with another pair for link "L", one event for an unrelated link. -/
theorem stats_one_row_per_pair_witness :
    ∃ rows, (get_link_statistic
        ⟨[], [⟨"L", some "r1", some "a1"⟩, ⟨"L", some "r1", some "a1"⟩,
              ⟨"L", none, some "a2"⟩, ⟨"M", some "r1", some "a1"⟩]⟩
        "L" none).2 = .ok rows ∧
      (rows.map fun r => (r.referer, r.user_agent)).Nodup ∧
      (∀ p : Option String × Option String,
        p ∈ rows.map (fun r => (r.referer, r.user_agent)) ↔
          ∃ e ∈ ([⟨"L", some "r1", some "a1"⟩, ⟨"L", some "r1", some "a1"⟩,
              ⟨"L", none, some "a2"⟩, ⟨"M", some "r1", some "a1"⟩] :
                List LinkStatisticEvent),
            e.link_id = "L" ∧ (e.referer, e.user_agent) = p) ∧
      (∀ r ∈ rows, r.amount = some (Int.ofNat
        ((([⟨"L", some "r1", some "a1"⟩, ⟨"L", some "r1", some "a1"⟩,
              ⟨"L", none, some "a2"⟩, ⟨"M", some "r1", some "a1"⟩] :
                List LinkStatisticEvent).filter
            fun e => e.link_id == "L").countP
          fun e => (e.referer, e.user_agent) == (r.referer, r.user_agent)))) ∧
      ((∀ e ∈ ([⟨"L", some "r1", some "a1"⟩, ⟨"L", some "r1", some "a1"⟩,
              ⟨"L", none, some "a2"⟩, ⟨"M", some "r1", some "a1"⟩] :
                List LinkStatisticEvent), e.link_id ≠ "L") → rows = []) :=
  stats_one_row_per_pair
    ⟨[], [⟨"L", some "r1", some "a1"⟩, ⟨"L", some "r1", some "a1"⟩,
          ⟨"L", none, some "a2"⟩, ⟨"M", some "r1", some "a1"⟩]⟩ "L"

/-- Witness for C5: a timed-out statistic insert leaves response and store
of a concrete redirect untouched. -/
theorem statistic_failure_never_surfaces_witness :
    (redirect ⟨[⟨"abc", "https://example.com/"⟩], []⟩ "abc" [] none
        (some .timeout)).2 =
      (redirect ⟨[⟨"abc", "https://example.com/"⟩], []⟩ "abc" [] none none).2 ∧
    (redirect ⟨[⟨"abc", "https://example.com/"⟩], []⟩ "abc" [] none
        (some .timeout)).1 = ⟨[⟨"abc", "https://example.com/"⟩], []⟩ :=
  statistic_failure_never_surfaces ⟨[⟨"abc", "https://example.com/"⟩], []⟩
    "abc" [] none .timeout
